import Mathlib

/-
Verification of the asynchronous job/artifact lifecycle of src/yt.py
(a Flask service that accepts a media URL, runs the fetch in a background
thread, exposes a polling status route, serves the artifact, and reclaims
storage by age).

Shallow embedding conventions:
* Strings are modelled as lists of characters (`Str`); string literals of
  the source appear as `"...".data`.
* The download directory is modelled as a partial map from paths to file
  sizes (`FS`); `none` means the path does not exist, `some n` means a
  regular file of `n` bytes exists there.  Filesystem primitives
  (`os.path.exists`, `os.path.getsize`, `os.remove`, writes performed by
  the fetch engine) act on this map.  Everywhere the source swallows an
  `os.remove` failure (the background task's bare `try/except pass`, the
  per-file `try/except` of the two cleanup loops) the model carries an
  explicit flag saying whether the unlink succeeds, so the swallowed
  error paths are representable.
* Python exceptions that the source itself raises are modelled as
  explicit result constructors (`ConvertResult.indexError` below).
* The external fetch engine (`yt_dlp`) is an external collaborator: its
  outcome is an explicit input (`FetchOutcome`, `ExtractResult`) rather
  than re-implemented.
* Route handlers are modelled as pure functions from their inputs (current
  filesystem, request token, engine outcome) to a response record; fields
  record the HTTP status code, the JSON payload pieces the claims are
  about, and whether the handler touched the filesystem before answering.
-/

abbrev Str := List Char

abbrev FS := Str → Option Nat

/-- `DOWNLOAD_DIR = './downloads'` (src/yt.py line 14). -/
def DOWNLOAD_DIR : Str := "./downloads".data

/-- `CLEANUP_INTERVAL = 3600` (src/yt.py line 15), used both as the sweep
interval and as the file lifetime. -/
def CLEANUP_INTERVAL : Nat := 3600

/-- `os.path.join(DOWNLOAD_DIR, name)` for a relative `name` (the Flask
route converters never pass a segment containing `/`, so the absolute-path
replacement behaviour of `os.path.join` is unreachable here). -/
def joinDownload (name : Str) : Str := DOWNLOAD_DIR ++ '/' :: name

/-- Literal-text matching at the start of a string: the deterministic core
of `re.match` on the literal parts of the patterns in
`convert_shorts_url` (src/yt.py lines 20-23). -/
def litStarts : Str → Str → Bool
  | [], _ => true
  | _ :: _, [] => false
  | c :: cs, d :: ds => c == d && litStarts cs ds

/-- The character class `[a-zA-Z0-9_-]` of the video-id capture groups. -/
def isIdChar (c : Char) : Bool :=
  c.isAlpha || c.isDigit || c == '_' || c == '-'

/-- The optional scheme group `(https?://)?` of both patterns.  Greedy
matching agrees with the regex backtracking semantics here: a string that
starts with `https://` or `http://` cannot simultaneously match the
literal (`youtube.com...`, `www....` or `youtu.be/`) that follows the
group, so the greedy strip never loses a match the engine would find. -/
def dropScheme (s : Str) : Str :=
  if litStarts "https://".data s then s.drop 8
  else if litStarts "http://".data s then s.drop 7
  else s

/-- The optional group `(www\.)?` of the Shorts pattern; greedy matching
is again safe because `www.` and `youtube.com/...` cannot both start the
same string. -/
def wwwStrip (s : Str) : Str :=
  if litStarts "www.".data s then s.drop 4 else s

/-- The capture group `([a-zA-Z0-9_-]+)`: the (greedy, maximal) run of id
characters at the front of `s`; `+` demands it be non-empty. -/
def idTake (s : Str) : Option Str :=
  let vid := s.takeWhile isIdChar
  if vid.isEmpty then none else some vid

/-- `re.match(r'(https?://)?(www\.)?youtube\.com/shorts/([a-zA-Z0-9_-]+)', url)`
returning group 3 (src/yt.py lines 21, 26-31). -/
def matchShorts (s : Str) : Option Str :=
  if litStarts "youtube.com/shorts/".data (wwwStrip (dropScheme s)) then
    idTake ((wwwStrip (dropScheme s)).drop 19)
  else none

/-- `re.match(r'(https?://)?youtu\.be/([a-zA-Z0-9_-]+)', url)` returning
group 2 (src/yt.py lines 22, 26-29). -/
def matchYoutuBe (s : Str) : Option Str :=
  if litStarts "youtu.be/".data (dropScheme s) then
    idTake ((dropScheme s).drop 9)
  else none

/-- The canonical watch-URL stem produced on a match (src/yt.py line 32). -/
def watchStem : Str := "https://www.youtube.com/watch?v=".data

/-- Result of one call to `convert_shorts_url`: either a returned string,
or the `IndexError` the source raises on the youtu.be branch (see below). -/
inductive ConvertResult where
  | ok (url : Str)
  | indexError
deriving DecidableEq

/-- `convert_shorts_url` (src/yt.py lines 18-33): the Shorts pattern is
tried first, then the `youtu.be` pattern.  On a Shorts match the branch
test at line 28 is False (the raw pattern text holds the escaped
`youtu\.be`, never the plain substring `youtu.be`), so line 31 runs and
`match.group(3)` returns the third group of the Shorts pattern — the
canonical watch URL is returned.  On a `youtu.be` match the same False
test again sends control to line 31, but that pattern has only two
groups, so `match.group(3)` raises `IndexError`: the youtu.be branch
never returns a URL.  With no match the input is returned unchanged. -/
def convert_shorts_url (url : Str) : ConvertResult :=
  match matchShorts url with
  | some vid => .ok (watchStem ++ vid)
  | none =>
    match matchYoutuBe url with
    | some _ => .indexError
    | none => .ok url

/-- Insertion of a file into the directory map (a completed write). -/
def fsInsert (fs : FS) (p : Str) (sz : Nat) : FS :=
  fun q => if q = p then some sz else fs q

/-- `os.remove` on the directory map. -/
def fsRemove (fs : FS) (p : Str) : FS :=
  fun q => if q = p then none else fs q

/-- Outcome of one run of `download_highest_quality` (src/yt.py lines
57-203), seen from its caller: either it returns normally having written
the output file (with some byte size), or it raises, possibly leaving a
partially written file at the output path (`yt_dlp` writes directly to
`outtmpl = output_filename`). -/
inductive FetchOutcome where
  | success (size : Nat)
  | failed (leftover : Option Nat)
deriving DecidableEq

/-- `download_video` (src/yt.py lines 221-231): runs the fetch; on an
exception it tries to remove the output file if it exists
(`os.path.exists` then `os.remove` inside a bare `try/except pass`).
`removeOk` says whether that unlink succeeds: when it fails, the
exception is swallowed and the partial file stays in place. -/
def download_video (fs : FS) (filename : Str) (removeOk : Bool) :
    FetchOutcome → FS
  | .success sz => fsInsert fs filename sz
  | .failed leftover =>
    let fs1 :=
      match leftover with
      | some sz => fsInsert fs filename sz
      | none => fs
    if (fs1 filename).isSome then
      if removeOk then fsRemove fs1 filename else fs1
    else fs1

/-- Response of the `/status/<file_id>` route (src/yt.py lines 321-334).
`accessed` records whether the handler touched the filesystem before
producing its answer. -/
structure StatusResp where
  httpCode : Nat
  status : Str
  size : Option Nat
  download_url : Option Str
  accessed : Bool
deriving DecidableEq

/-- `check_status` (src/yt.py lines 321-334): joins the raw `file_id` to
the download directory, calls `os.path.exists` (a filesystem access) with
no validation of the token, and answers `ready` with `os.path.getsize`
when the file exists, else `processing`; both answers are HTTP 200. -/
def check_status (fs : FS) (file_id : Str) : StatusResp :=
  let filepath := joinDownload (file_id ++ ".mp4".data)
  match fs filepath with
  | some sz =>
    ⟨200, "ready".data, some sz,
      some ("/downloads/".data ++ file_id ++ ".mp4".data), true⟩
  | none => ⟨200, "processing".data, none, none, true⟩

/-- Response of the `/downloads/<filename>` route (src/yt.py lines
302-319): only the HTTP code and whether the filesystem was touched
matter to the claims. -/
structure ServeResp where
  httpCode : Nat
  fsAccessed : Bool
deriving DecidableEq

/-- One character of `[a-f0-9\-]`. -/
def isTokenChar (c : Char) : Bool :=
  ('a' ≤ c && c ≤ 'f') || ('0' ≤ c && c ≤ '9') || c == '-'

/-- The exact shape of a generated artifact name: 36 token characters
followed by `.mp4` (40 characters in all). -/
def uuidName (n : Str) : Bool :=
  n.length == 40 && (n.take 36).all isTokenChar && n.drop 36 == ".mp4".data

/-- `re.match(r'^[a-f0-9\-]{36}\.mp4$', filename)` (src/yt.py line 306).
Python's `$` (outside MULTILINE mode) matches at the end of the string
or just before one newline at the very end, so the regex accepts exactly
the 40-character generated shape and that same shape followed by a single
trailing newline — the latter being a malformed 41-character token the
check lets through. -/
def valid_filename (n : Str) : Bool :=
  uuidName n ||
    (n.length == 41 && uuidName (n.take 40) && n.drop 40 == ['\n'])

/-- A well-formed status-route token under the generation scheme of
src/yt.py line 271 (`str(uuid.uuid4())`): its `.mp4` form passes the
serving route's check. -/
def valid_file_id (i : Str) : Bool := valid_filename (i ++ ".mp4".data)

/-- `serve_download` (src/yt.py lines 302-319): the regex check runs
before any path is built; only on success are `os.path.exists` and
`send_from_directory` reached. -/
def serve_download (fs : FS) (filename : Str) : ServeResp :=
  if valid_filename filename then
    if (fs (joinDownload filename)).isSome then ⟨200, true⟩ else ⟨404, true⟩
  else ⟨400, false⟩

/-- One format entry of `info.get('formats', [])` as used by
`download_short`. -/
structure FormatInfo where
  height : Option Nat
deriving DecidableEq

/-- The slice of `ydl.extract_info` output that `download_short` reads. -/
structure VideoInfo where
  title : Option Str
  duration : Option Nat
  formats : List FormatInfo
deriving DecidableEq

/-- Outcome of the metadata extraction inside `download_short`
(src/yt.py lines 253-300): a normal info dict, a falsy info dict
(line 256), a `yt_dlp.utils.DownloadError` (line 297), or any other
exception (line 299). -/
inductive ExtractResult where
  | ok (info : VideoInfo)
  | noInfo
  | downloadErr (msg : Str)
  | otherErr (msg : Str)
deriving DecidableEq

/-- Response of the `POST /download` route, together with the background
threads it started: `spawned` lists the `(url, filename)` argument pairs
of the `threading.Thread(target=download_video, ...)` calls issued during
the request (src/yt.py lines 275-280).  The tasks are returned
symbolically, not executed: the handler answers without running them. -/
structure SubmitResp where
  httpCode : Nat
  errorMsg : Option Str
  download_id : Option Str
  filename : Option Str
  spawned : List (Str × Str)
deriving DecidableEq

/-- `download_short` (src/yt.py lines 233-295).  `body` models
`request.get_json()` followed by `data.get('url')`: `none` is a missing
or falsy JSON body, `some none` a body without a `url` key, and
`some (some u)` a body carrying url `u` (an empty `u` is falsy in Python
and is rejected like a missing one).  `extract` is the external engine's
metadata call, `freshId` the value of `str(uuid.uuid4())` at line 271.
The `convert_shorts_url` call at line 244 sits inside the handler's
`try`, so the `IndexError` it raises on youtu.be inputs is caught by
`except Exception` at line 299 and answered as a 500. -/
def download_short (body : Option (Option Str))
    (extract : Str → ExtractResult) (freshId : Str) : SubmitResp :=
  match body with
  | none => ⟨400, some "Invalid JSON".data, none, none, []⟩
  | some urlField =>
    match urlField with
    | none => ⟨400, some "URL required".data, none, none, []⟩
    | some url0 =>
      if url0.isEmpty then ⟨400, some "URL required".data, none, none, []⟩
      else
        match convert_shorts_url url0 with
        | .indexError =>
          ⟨500, some "Internal server error".data, none, none, []⟩
        | .ok url =>
          match extract url with
          | .downloadErr _ =>
            ⟨400, some "Video not available or restricted".data, none, none, []⟩
          | .otherErr _ =>
            ⟨500, some "Internal server error".data, none, none, []⟩
          | .noInfo =>
            ⟨400, some "Could not extract video information".data, none, none, []⟩
          | .ok _ =>
            let file_id := freshId
            let temp_filename := joinDownload (file_id ++ ".mp4".data)
            ⟨200, none, some file_id, some (file_id ++ ".mp4".data),
              [(url, temp_filename)]⟩

/-- One entry of `os.listdir(DOWNLOAD_DIR)` as seen by the cleanup code:
its name, whether `os.path.isfile` holds, its age in seconds
(`now - os.path.getmtime`), and whether `os.remove` would succeed on it. -/
structure DirEntry where
  name : Str
  isFile : Bool
  ageSeconds : Nat
  removeOk : Bool
deriving DecidableEq

/-- The body of the `for filename in os.listdir(...)` loop of
`cleanup_old_files` (src/yt.py lines 210-219), threading an accumulator
of (names removed so far, names whose removal failed and was logged).
No job or thread state is consulted anywhere in the loop. -/
def sweepStep (lifetime : Nat) (acc : List Str × List Str)
    (f : DirEntry) : List Str × List Str :=
  if f.isFile then
    if lifetime < f.ageSeconds then
      if f.removeOk then (acc.1 ++ [f.name], acc.2)
      else (acc.1, acc.2 ++ [f.name])
    else acc
  else acc

/-- One full pass of the sweep loop of `cleanup_old_files` over a
directory listing, returning (deleted names, logged failures). -/
def cleanup_cycle (lifetime : Nat) (files : List DirEntry) :
    List Str × List Str :=
  files.foldl (sweepStep lifetime) ([], [])

/-- The loop body of `manual_cleanup` (src/yt.py lines 340-348): every
regular file is removed with no age or activity check; a failed removal
is silently skipped and not counted. -/
def manualStep (acc : List Str × Nat) (f : DirEntry) : List Str × Nat :=
  if f.isFile then
    if f.removeOk then (acc.1 ++ [f.name], acc.2 + 1) else acc
  else acc

/-- `manual_cleanup` (src/yt.py lines 336-351): returns (removed names,
the `deleted` counter reported in the response message). -/
def manual_cleanup (files : List DirEntry) : List Str × Nat :=
  files.foldl manualStep ([], 0)

/-- Concrete fixture: a store holding a zero-byte file for id `abc`
(a fetch in progress, the engine having just created the output file). -/
def fsZero : FS :=
  fun p => if p = "./downloads/abc.mp4".data then some 0 else none

/-- Concrete fixture: an empty store. -/
def fsEmpty : FS := fun _ => none

/-- Concrete fixture: an over-age artifact of a still-running job `r`. -/
def runningEntry : DirEntry := ⟨"r.mp4".data, true, 3601, true⟩

/-- Concrete fixture: an over-age artifact whose removal fails. -/
def staleBadEntry : DirEntry := ⟨"s.mp4".data, true, 4000, false⟩

/-- Concrete fixture: a fresh artifact below the lifetime. -/
def freshEntry : DirEntry := ⟨"f.mp4".data, true, 10, true⟩

/-- Concrete fixture: a video info record with one 1080p format. -/
def infoSample : VideoInfo :=
  ⟨some "t".data, some 10, [⟨some 1080⟩]⟩

/-- Concrete fixture: a well-formed generated artifact name. -/
def uuidSampleName : Str :=
  "12345678-1234-1234-1234-123456789012.mp4".data

/-- Concrete fixture: the same name with a trailing newline — a malformed
token that the serving route's regex nevertheless accepts. -/
def newlineName : Str := uuidSampleName ++ ['\n']


/-! Helper lemmas (shared across claims). -/

theorem litStarts_self_append (l k : Str) : litStarts l (l ++ k) = true := by
  induction l with
  | nil => rfl
  | cons c cs ih => simp [litStarts, ih]

theorem litStarts_append_of_le (l m k : Str) (h : l.length ≤ m.length) :
    litStarts l (m ++ k) = litStarts l m := by
  induction l generalizing m with
  | nil => simp [litStarts]
  | cons c cs ih =>
    cases m with
    | nil => simp at h
    | cons d ds =>
      have h' : cs.length ≤ ds.length := by simpa using h
      show (c == d && litStarts cs (ds ++ k)) = (c == d && litStarts cs ds)
      rw [ih ds h']

theorem drop_own_length (l rest : Str) : (l ++ rest).drop l.length = rest :=
  List.drop_left l rest

theorem dropScheme_https (rest : Str) :
    dropScheme ("https://".data ++ rest) = rest := by
  unfold dropScheme
  rw [if_pos (litStarts_self_append "https://".data rest)]
  exact drop_own_length "https://".data rest

theorem wwwStrip_www (rest : Str) :
    wwwStrip ("www.".data ++ rest) = rest := by
  unfold wwwStrip
  rw [if_pos (litStarts_self_append "www.".data rest)]
  exact drop_own_length "www.".data rest

theorem dropScheme_watch (vid : Str) :
    dropScheme (watchStem ++ vid) =
      "www.".data ++ ("youtube.com/watch?v=".data ++ vid) := by
  rw [show watchStem = "https://".data ++ ("www.".data ++ "youtube.com/watch?v=".data)
    from by decide]
  rw [List.append_assoc, List.append_assoc]
  exact dropScheme_https _

theorem matchShorts_watch (vid : Str) : matchShorts (watchStem ++ vid) = none := by
  have e4 : litStarts "youtube.com/shorts/".data
      ("youtube.com/watch?v=".data ++ vid) = false := by
    rw [litStarts_append_of_le _ _ _ (by decide)]
    decide
  unfold matchShorts
  rw [dropScheme_watch, wwwStrip_www, e4]
  rw [if_neg (by decide)]

theorem matchYoutuBe_watch (vid : Str) : matchYoutuBe (watchStem ++ vid) = none := by
  have e5 : "www.".data ++ ("youtube.com/watch?v=".data ++ vid) =
      "www.youtube.com/watch?v=".data ++ vid := by
    rw [← List.append_assoc]
    rw [show "www.".data ++ "youtube.com/watch?v=".data =
      "www.youtube.com/watch?v=".data from by decide]
  have e6 : litStarts "youtu.be/".data
      ("www.youtube.com/watch?v=".data ++ vid) = false := by
    rw [litStarts_append_of_le _ _ _ (by decide)]
    decide
  unfold matchYoutuBe
  rw [dropScheme_watch, e5, e6]
  rw [if_neg (by decide)]

theorem convert_watch_fixed (vid : Str) :
    convert_shorts_url (watchStem ++ vid) = .ok (watchStem ++ vid) := by
  unfold convert_shorts_url
  rw [matchShorts_watch, matchYoutuBe_watch]

theorem convert_eq_of_shorts (s vid : Str) (h : matchShorts s = some vid) :
    convert_shorts_url s = .ok (watchStem ++ vid) := by
  unfold convert_shorts_url
  rw [h]

theorem convert_eq_of_yb (s vid : Str) (h1 : matchShorts s = none)
    (h2 : matchYoutuBe s = some vid) :
    convert_shorts_url s = .indexError := by
  unfold convert_shorts_url
  rw [h1, h2]

theorem convert_eq_of_none (s : Str) (h1 : matchShorts s = none)
    (h2 : matchYoutuBe s = none) : convert_shorts_url s = .ok s := by
  unfold convert_shorts_url
  rw [h1, h2]

theorem download_video_failed_apply (fs : FS) (filename : Str)
    (leftover : Option Nat) :
    download_video fs filename true (.failed leftover) filename = none := by
  unfold download_video
  cases leftover with
  | some sz => simp [fsInsert, fsRemove]
  | none =>
    cases h : fs filename with
    | some sz => simp [h, fsRemove]
    | none => simp [h]

theorem download_video_failed_noremove (fs : FS) (filename : Str) (sz : Nat) :
    download_video fs filename false (.failed (some sz)) filename = some sz := by
  unfold download_video
  simp [fsInsert]

theorem sweepStep_fst_mono (lifetime : Nat) (acc : List Str × List Str)
    (f : DirEntry) (x : Str) (hx : x ∈ acc.1) :
    x ∈ (sweepStep lifetime acc f).1 := by
  by_cases h1 : f.isFile
  · by_cases h2 : lifetime < f.ageSeconds
    · by_cases h3 : f.removeOk
      · simp [sweepStep, h1, h2, h3, List.mem_append, hx]
      · simp [sweepStep, h1, h2, h3, hx]
    · simp [sweepStep, h1, h2, hx]
  · simp [sweepStep, h1, hx]

theorem sweepStep_snd_mono (lifetime : Nat) (acc : List Str × List Str)
    (f : DirEntry) (x : Str) (hx : x ∈ acc.2) :
    x ∈ (sweepStep lifetime acc f).2 := by
  by_cases h1 : f.isFile
  · by_cases h2 : lifetime < f.ageSeconds
    · by_cases h3 : f.removeOk
      · simp [sweepStep, h1, h2, h3, hx]
      · simp [sweepStep, h1, h2, h3, List.mem_append, hx]
    · simp [sweepStep, h1, h2, hx]
  · simp [sweepStep, h1, hx]

theorem foldl_sweep_fst_mono (lifetime : Nat) :
    ∀ (files : List DirEntry) (acc : List Str × List Str) (x : Str),
      x ∈ acc.1 → x ∈ (files.foldl (sweepStep lifetime) acc).1 := by
  intro files
  induction files with
  | nil => intro acc x hx; exact hx
  | cons g gs ih =>
    intro acc x hx
    exact ih _ x (sweepStep_fst_mono lifetime acc g x hx)

theorem foldl_sweep_snd_mono (lifetime : Nat) :
    ∀ (files : List DirEntry) (acc : List Str × List Str) (x : Str),
      x ∈ acc.2 → x ∈ (files.foldl (sweepStep lifetime) acc).2 := by
  intro files
  induction files with
  | nil => intro acc x hx; exact hx
  | cons g gs ih =>
    intro acc x hx
    exact ih _ x (sweepStep_snd_mono lifetime acc g x hx)

theorem mem_fst_sweep_aux (lifetime : Nat) (f : DirEntry)
    (h1 : f.isFile = true) (h2 : lifetime < f.ageSeconds)
    (h3 : f.removeOk = true) :
    ∀ (files : List DirEntry) (acc : List Str × List Str),
      f ∈ files → f.name ∈ (files.foldl (sweepStep lifetime) acc).1 := by
  intro files
  induction files with
  | nil => intro acc hf; cases hf
  | cons g gs ih =>
    intro acc hf
    rcases List.mem_cons.mp hf with hgf | hmem
    · subst hgf
      rw [List.foldl_cons]
      apply foldl_sweep_fst_mono
      simp [sweepStep, h1, h2, h3]
    · exact ih _ hmem

theorem mem_snd_sweep_aux (lifetime : Nat) (f : DirEntry)
    (h1 : f.isFile = true) (h2 : lifetime < f.ageSeconds)
    (h3 : f.removeOk = false) :
    ∀ (files : List DirEntry) (acc : List Str × List Str),
      f ∈ files → f.name ∈ (files.foldl (sweepStep lifetime) acc).2 := by
  intro files
  induction files with
  | nil => intro acc hf; cases hf
  | cons g gs ih =>
    intro acc hf
    rcases List.mem_cons.mp hf with hgf | hmem
    · subst hgf
      rw [List.foldl_cons]
      apply foldl_sweep_snd_mono
      simp [sweepStep, h1, h2, h3]
    · exact ih _ hmem

theorem manualStep_fst_mono (acc : List Str × Nat) (f : DirEntry) (x : Str)
    (hx : x ∈ acc.1) : x ∈ (manualStep acc f).1 := by
  by_cases h1 : f.isFile
  · by_cases h3 : f.removeOk
    · simp [manualStep, h1, h3, List.mem_append, hx]
    · simp [manualStep, h1, h3, hx]
  · simp [manualStep, h1, hx]

theorem foldl_manual_fst_mono :
    ∀ (files : List DirEntry) (acc : List Str × Nat) (x : Str),
      x ∈ acc.1 → x ∈ (files.foldl manualStep acc).1 := by
  intro files
  induction files with
  | nil => intro acc x hx; exact hx
  | cons g gs ih =>
    intro acc x hx
    exact ih _ x (manualStep_fst_mono acc g x hx)

theorem mem_fst_manual_aux (f : DirEntry) (h1 : f.isFile = true)
    (h3 : f.removeOk = true) :
    ∀ (files : List DirEntry) (acc : List Str × Nat),
      f ∈ files → f.name ∈ (files.foldl manualStep acc).1 := by
  intro files
  induction files with
  | nil => intro acc hf; cases hf
  | cons g gs ih =>
    intro acc hf
    rcases List.mem_cons.mp hf with hgf | hmem
    · subst hgf
      rw [List.foldl_cons]
      apply foldl_manual_fst_mono
      simp [manualStep, h1, h3]
    · exact ih _ hmem

theorem manual_count_aux :
    ∀ (files : List DirEntry) (acc : List Str × Nat),
      (files.foldl manualStep acc).2 =
        acc.2 + files.countP (fun f => f.isFile && f.removeOk) := by
  intro files
  induction files with
  | nil => intro acc; simp
  | cons g gs ih =>
    intro acc
    rw [List.foldl_cons, ih, List.countP_cons]
    by_cases h1 : g.isFile
    · by_cases h3 : g.removeOk
      · simp [manualStep, h1, h3]
        omega
      · simp [manualStep, h1, h3]
    · simp [manualStep, h1]

theorem countP_removeOk_congr :
    ∀ (files : List DirEntry), (∀ f ∈ files, f.removeOk = true) →
      files.countP (fun f => f.isFile && f.removeOk) =
        files.countP (fun f => f.isFile) := by
  intro files
  induction files with
  | nil => intro _; rfl
  | cons g gs ih =>
    intro hall
    rw [List.countP_cons, List.countP_cons,
      ih (fun f hf => hall f (List.mem_cons_of_mem g hf))]
    have hg : g.removeOk = true := hall g (List.mem_cons_self g gs)
    simp [hg]

/-! Claim theorems. -/

/-- Claim C1, as stated, is false at a concrete store: for a zero-byte
file at `./downloads/abc.mp4` (a fetch still in progress), `check_status`
reports state `ready` with size `0` — the code guards only on existence
(src/yt.py lines 326-332), never on a positive size. -/
theorem c1_counterexample :
    ¬ (∀ (fs : FS) (i : Str), (check_status fs i).status = "ready".data →
        ∃ n, (check_status fs i).size = some n ∧ 0 < n) := by
  intro h
  rcases h fsZero "abc".data (by decide) with ⟨n, hn, hpos⟩
  rw [show (check_status fsZero "abc".data).size = some 0 from by decide] at hn
  injection hn with hn0
  omega

/-- Claim C1 (amended): `check_status` reports `ready` for an id exactly
when the artifact file exists, and the size it reports is whatever size
the file currently has — including `0` for a partially written file; no
strictly-positive-size guarantee is enforced. -/
theorem c1_status_ready_iff_exists (fs : FS) (i : Str) :
    ((check_status fs i).status = "ready".data ↔
      (fs (joinDownload (i ++ ".mp4".data))).isSome = true)
    ∧ (check_status fs i).size = fs (joinDownload (i ++ ".mp4".data)) := by
  cases h : fs (joinDownload (i ++ ".mp4".data)) with
  | some sz =>
    refine ⟨⟨fun _ => rfl, fun _ => ?_⟩, ?_⟩
    · simp [check_status, h]
    · simp [check_status, h]
  | none =>
    refine ⟨⟨fun hc => ?_, fun hc => ?_⟩, ?_⟩
    · have hs : (check_status fs i).status = "processing".data := by
        simp [check_status, h]
      rw [hs] at hc
      exact absurd hc (by decide)
    · exact absurd hc (by decide)
    · simp [check_status, h]

/-- Claim C2, as stated, is false: the sweep loop of `cleanup_old_files`
(src/yt.py lines 210-219) consults no job or thread state, so an over-age
artifact (`r.mp4`, age 3601s) is deleted even while its job `r` is in the
running set. -/
theorem c2_counterexample :
    ¬ (∀ (runningIds : List Str) (files : List DirEntry) (f : DirEntry),
        f ∈ files → (∃ i ∈ runningIds, f.name = i ++ ".mp4".data) →
        f.name ∉ (cleanup_cycle CLEANUP_INTERVAL files).1) := by
  intro h
  exact h ["r".data] [runningEntry] runningEntry (by decide)
    ⟨"r".data, by decide, by decide⟩ (by decide)

/-- Claim C2 (amended): a sweep cycle deletes every over-age regular
removable file even when the file's id belongs to a running job — the
sweeper is oblivious to job state. -/
theorem c2_sweeper_ignores_running (runningIds : List Str) (lifetime : Nat)
    (files : List DirEntry) (f : DirEntry)
    (_hrun : ∃ i ∈ runningIds, f.name = i ++ ".mp4".data)
    (hmem : f ∈ files) (h1 : f.isFile = true)
    (h2 : lifetime < f.ageSeconds) (h3 : f.removeOk = true) :
    f.name ∈ (cleanup_cycle lifetime files).1 :=
  mem_fst_sweep_aux lifetime f h1 h2 h3 files ([], []) hmem

/-- Witness for C2 (amended) at the running-job fixture. -/
theorem c2_sweeper_ignores_running_witness :
    (∃ i ∈ ["r".data], runningEntry.name = i ++ ".mp4".data)
    ∧ runningEntry.name ∈ (cleanup_cycle 3600 [runningEntry]).1 :=
  ⟨⟨"r".data, by decide, by decide⟩,
    c2_sweeper_ignores_running ["r".data] 3600 [runningEntry] runningEntry
      ⟨"r".data, by decide, by decide⟩ (by decide) (by decide) (by decide)
      (by decide)⟩

/-- Claim C3, as stated, is false: the status route performs no token
validation at all — `check_status` joins the raw token to the download
directory and calls `os.path.exists` (src/yt.py line 324-326) even for a
malformed token such as `..`. -/
theorem c3_counterexample :
    ¬ (∀ (fs : FS) (i : Str), valid_file_id i = false →
        (check_status fs i).accessed = false) := by
  intro h
  exact absurd (h fsEmpty "..".data (by decide)) (by decide)

/-- Claim C3 (amended): the artifact-serving route rejects every filename
failing its regex with 400 before any filesystem access (src/yt.py lines
306-307), but that regex itself accepts one malformed shape — a generated
name with a trailing newline, which reaches `os.path.exists` — and the
status route touches the filesystem for every token, validated or not. -/
theorem c3_serve_validates_status_does_not (fs : FS) (n i : Str)
    (hn : valid_filename n = false) :
    serve_download fs n = ⟨400, false⟩
    ∧ (check_status fs i).accessed = true
    ∧ (uuidName newlineName = false ∧ valid_filename newlineName = true
       ∧ (serve_download fs newlineName).fsAccessed = true) := by
  refine ⟨?_, ?_, by decide, by decide, ?_⟩
  · simp [serve_download, hn]
  · cases h : fs (joinDownload (i ++ ".mp4".data)) <;> simp [check_status, h]
  · have hv : valid_filename newlineName = true := by decide
    cases h : fs (joinDownload newlineName) <;> simp [serve_download, hv, h]

/-- Witness for C3 (amended) at the malformed token `..`. -/
theorem c3_serve_validates_status_does_not_witness :
    valid_filename "..".data = false
    ∧ (serve_download fsEmpty "..".data = ⟨400, false⟩
       ∧ (check_status fsEmpty "..".data).accessed = true
       ∧ (uuidName newlineName = false ∧ valid_filename newlineName = true
          ∧ (serve_download fsEmpty newlineName).fsAccessed = true)) :=
  ⟨by decide, c3_serve_validates_status_does_not fsEmpty "..".data "..".data
    (by decide)⟩

/-- Claim C4, as stated, is false: for an id with no file (unknown or
garbage-collected), `check_status` answers HTTP 200 with state
`processing` (src/yt.py line 334), not a 404 NotFound. -/
theorem c4_counterexample :
    ¬ (∀ (fs : FS) (i : Str), fs (joinDownload (i ++ ".mp4".data)) = none →
        (check_status fs i).httpCode = 404) := by
  intro h
  exact absurd (h fsEmpty "abc".data rfl) (by decide)

/-- Claim C4 (amended): for every id whose artifact file is absent —
never issued or already swept — the status operation returns HTTP 200
with state `processing` and no size; unknown ids are indistinguishable
from in-flight ones. -/
theorem c4_unknown_id_reports_processing (fs : FS) (i : Str)
    (h : fs (joinDownload (i ++ ".mp4".data)) = none) :
    check_status fs i = ⟨200, "processing".data, none, none, true⟩ := by
  simp [check_status, h]

/-- Witness for C4 (amended) on the empty store. -/
theorem c4_unknown_id_reports_processing_witness :
    fsEmpty (joinDownload ("abc".data ++ ".mp4".data)) = none
    ∧ check_status fsEmpty "abc".data = ⟨200, "processing".data, none, none, true⟩ :=
  ⟨rfl, c4_unknown_id_reports_processing fsEmpty "abc".data rfl⟩

/-- Claim C5, as stated, is false: the code records no Failed state at
all — `check_status` has only `ready` and `processing` answers, so it
never reports `failed` after a failed background fetch (src/yt.py lines
225-231, 326-334). -/
theorem c5_counterexample :
    ¬ (∀ (fs : FS) (i : Str) (removeOk : Bool) (leftover : Option Nat),
        (check_status
          (download_video fs (joinDownload (i ++ ".mp4".data)) removeOk
            (.failed leftover))
          i).status = "failed".data) := by
  intro h
  exact absurd (h fsEmpty "abc".data true (some 5)) (by decide)

/-- Claim C5 (amended): after a background fetch fails, a Status call on
that id never reports a failure.  When the cleanup unlink succeeds it
reports `processing` (HTTP 200) with no error information, making the
failure indistinguishable from a download still in flight; when the
unlink fails (swallowed by the bare except, src/yt.py lines 230-231) the
leftover partial file is even reported as `ready`. -/
theorem c5_failed_job_reports_processing (fs : FS) (i : Str)
    (leftover : Option Nat) :
    check_status
        (download_video fs (joinDownload (i ++ ".mp4".data)) true
          (.failed leftover))
        i = ⟨200, "processing".data, none, none, true⟩
    ∧ ∀ sz, (check_status
        (download_video fs (joinDownload (i ++ ".mp4".data)) false
          (.failed (some sz)))
        i).status = "ready".data := by
  constructor
  · have h := download_video_failed_apply fs (joinDownload (i ++ ".mp4".data))
      leftover
    simp [check_status, h]
  · intro sz
    have h := download_video_failed_noremove fs (joinDownload (i ++ ".mp4".data))
      sz
    simp [check_status, h]

/-- Claim C6: a successful `POST /download` starts exactly one background
thread (src/yt.py lines 275-280) and immediately answers with the freshly
generated uuid as `download_id`; the spawned task is returned unexecuted,
so the response never waits on the fetch. -/
theorem c6_submit_spawns_one_task (body : Option (Option Str))
    (extract : Str → ExtractResult) (freshId : Str)
    (h : (download_short body extract freshId).httpCode = 200) :
    (download_short body extract freshId).spawned.length = 1
    ∧ (download_short body extract freshId).download_id = some freshId := by
  cases body with
  | none => simp [download_short] at h
  | some urlField =>
    cases urlField with
    | none => simp [download_short] at h
    | some u =>
      by_cases hu : u.isEmpty
      · simp [download_short, hu] at h
      · cases hcv : convert_shorts_url u with
        | indexError => simp [download_short, hu, hcv] at h
        | ok url =>
          cases hext : extract url with
          | ok info => simp [download_short, hu, hcv, hext]
          | noInfo => simp [download_short, hu, hcv, hext] at h
          | downloadErr m => simp [download_short, hu, hcv, hext] at h
          | otherErr m => simp [download_short, hu, hcv, hext] at h

/-- Witness for C6 at a concrete request. -/
theorem c6_submit_spawns_one_task_witness :
    (download_short (some (some "u".data)) (fun _ => .ok infoSample)
      "id0".data).httpCode = 200
    ∧ ((download_short (some (some "u".data)) (fun _ => .ok infoSample)
        "id0".data).spawned.length = 1
       ∧ (download_short (some (some "u".data)) (fun _ => .ok infoSample)
          "id0".data).download_id = some "id0".data) :=
  ⟨by decide, c6_submit_spawns_one_task (some (some "u".data))
    (fun _ => .ok infoSample) "id0".data (by decide)⟩

/-- Claim C7, as stated, is false: the removal guarantee does not cover
the unlink-failure path.  `os.remove` sits inside a bare
`try/except pass` (src/yt.py lines 227-231), so when the unlink fails
the error is swallowed and the partial file stays at the output path. -/
theorem c7_counterexample :
    ¬ (∀ (fs : FS) (filename : Str) (removeOk : Bool) (leftover : Option Nat),
        download_video fs filename removeOk (.failed leftover) filename
          = none) := by
  intro h
  exact absurd (h fsEmpty "f".data false (some 5)) (by decide)

/-- Claim C7 (amended): on any fetch failure the task attempts to remove
the output path; when the unlink succeeds the path is absent afterwards
(whatever partial file, or none, the engine left there), but when the
unlink fails the bare except swallows the error and the partial file
remains. -/
theorem c7_failure_cleanup_best_effort (fs : FS) (filename : Str)
    (leftover : Option Nat) :
    download_video fs filename true (.failed leftover) filename = none
    ∧ ∀ sz, download_video fs filename false (.failed (some sz)) filename
        = some sz :=
  ⟨download_video_failed_apply fs filename leftover,
   fun sz => download_video_failed_noremove fs filename sz⟩

/-- Claim C8: a sweep cycle deletes every regular file whose age strictly
exceeds the lifetime (and whose job is not running — a vacuous proviso,
the loop never consults job state), and a removal failure is logged and
leaves the rest of the cycle unaffected: every other qualifying file in
the same listing is still deleted. -/
theorem c8_sweep_deletes_old_and_survives_failures (lifetime : Nat)
    (runningIds : List Str) (files : List DirEntry) (f : DirEntry)
    (hmem : f ∈ files) (h1 : f.isFile = true) (h2 : lifetime < f.ageSeconds)
    (_hrun : ¬ ∃ i ∈ runningIds, f.name = i ++ ".mp4".data) :
    (f.removeOk = true → f.name ∈ (cleanup_cycle lifetime files).1)
    ∧ (f.removeOk = false → f.name ∈ (cleanup_cycle lifetime files).2) :=
  ⟨fun h3 => mem_fst_sweep_aux lifetime f h1 h2 h3 files ([], []) hmem,
   fun h3 => mem_snd_sweep_aux lifetime f h1 h2 h3 files ([], []) hmem⟩

/-- Witness for C8: in a listing holding a failing over-age file between
two others, the failure is logged and does not prevent its neighbours'
processing (the over-age removable neighbour is still deleted). -/
theorem c8_sweep_deletes_old_and_survives_failures_witness :
    (staleBadEntry ∈ [runningEntry, staleBadEntry, freshEntry]
     ∧ staleBadEntry.isFile = true
     ∧ 3600 < staleBadEntry.ageSeconds
     ∧ ¬ ∃ i ∈ ([] : List Str), staleBadEntry.name = i ++ ".mp4".data)
    ∧ (staleBadEntry.removeOk = false →
        staleBadEntry.name ∈
          (cleanup_cycle 3600 [runningEntry, staleBadEntry, freshEntry]).2) :=
  ⟨⟨by decide, by decide, by decide, by simp⟩,
   (c8_sweep_deletes_old_and_survives_failures 3600 []
      [runningEntry, staleBadEntry, freshEntry] staleBadEntry (by decide)
      (by decide) (by decide) (by simp)).2⟩

/-- Claim C9: `POST /cleanup` removes every regular file in the download
directory, with no age check and no check for in-flight downloads
(src/yt.py lines 340-348), and the reported count is the number of files
deleted (here, with all removals succeeding, the number of regular
files). -/
theorem c9_manual_cleanup_deletes_everything (files : List DirEntry)
    (hall : ∀ f ∈ files, f.removeOk = true) :
    (∀ f ∈ files, f.isFile = true → f.name ∈ (manual_cleanup files).1)
    ∧ (manual_cleanup files).2 = (files.filter (fun f => f.isFile)).length := by
  constructor
  · intro f hf hfile
    exact mem_fst_manual_aux f hfile (hall f hf) files ([], 0) hf
  · calc (manual_cleanup files).2
        = 0 + files.countP (fun f => f.isFile && f.removeOk) :=
          manual_count_aux files ([], 0)
      _ = files.countP (fun f => f.isFile) := by
          rw [Nat.zero_add, countP_removeOk_congr files hall]
      _ = (files.filter (fun f => f.isFile)).length :=
          (List.countP_eq_length_filter _ _).symm ▸ rfl

/-- Witness for C9 at a two-file listing: a fresh file and an over-age
file of a running job are both deleted and both counted. -/
theorem c9_manual_cleanup_deletes_everything_witness :
    (∀ f ∈ [runningEntry, freshEntry], f.removeOk = true)
    ∧ ((∀ f ∈ [runningEntry, freshEntry], f.isFile = true →
          f.name ∈ (manual_cleanup [runningEntry, freshEntry]).1)
       ∧ (manual_cleanup [runningEntry, freshEntry]).2 =
          ([runningEntry, freshEntry].filter (fun f => f.isFile)).length) :=
  ⟨by decide, c9_manual_cleanup_deletes_everything [runningEntry, freshEntry]
    (by decide)⟩

/-- Claim C10, as stated, is false: applying `convert_shorts_url` once
does not even yield a result on every input, so a second application
cannot reproduce it.  On `youtu.be/abc` the function raises `IndexError`
(the line-28 test `'youtu.be' in pattern` is False because the raw
pattern holds `youtu\.be`, so `match.group(3)` is evaluated on a
two-group match). -/
theorem c10_counterexample :
    ¬ (∀ s : Str, ∃ t, convert_shorts_url s = .ok t
        ∧ convert_shorts_url t = .ok t) := by
  intro h
  rcases h "youtu.be/abc".data with ⟨t, ht, _⟩
  rw [show convert_shorts_url "youtu.be/abc".data = .indexError from by decide]
    at ht
  exact ConvertResult.noConfusion ht

/-- Claim C10 (amended): `convert_shorts_url` is idempotent only on the
inputs where it returns at all — every string it returns is a fixed
point (inputs matching neither pattern come back unchanged, and each
produced canonical watch URL matches neither pattern again) — while every
input matching the `youtu.be` pattern (and not the Shorts pattern) makes
it raise `IndexError` instead of returning. -/
theorem c10_convert_fixed_point_or_raise (s : Str) :
    (∀ t, convert_shorts_url s = .ok t → convert_shorts_url t = .ok t)
    ∧ ((matchShorts s = none ∧ matchYoutuBe s = none) →
        convert_shorts_url s = .ok s)
    ∧ (∀ vid, matchShorts s = none → matchYoutuBe s = some vid →
        convert_shorts_url s = .indexError) := by
  refine ⟨?_, ?_, ?_⟩
  · intro t ht
    rcases h1 : matchShorts s with _ | vid
    · rcases h2 : matchYoutuBe s with _ | vid
      · rw [convert_eq_of_none s h1 h2] at ht
        injection ht with ht'
        subst ht'
        exact convert_eq_of_none s h1 h2
      · rw [convert_eq_of_yb s vid h1 h2] at ht
        exact ConvertResult.noConfusion ht
    · rw [convert_eq_of_shorts s vid h1] at ht
      injection ht with ht'
      subst ht'
      exact convert_watch_fixed vid
  · rintro ⟨h1, h2⟩
    exact convert_eq_of_none s h1 h2
  · intro vid h1 h2
    exact convert_eq_of_yb s vid h1 h2

/-- Witness for C10 (amended): a Shorts input whose output is a fixed
point, a non-matching input returned unchanged, and a youtu.be input
that raises. -/
theorem c10_convert_fixed_point_or_raise_witness :
    convert_shorts_url "https://www.youtube.com/watch?v=abc".data
      = .ok "https://www.youtube.com/watch?v=abc".data
    ∧ convert_shorts_url "x".data = .ok "x".data
    ∧ convert_shorts_url "youtu.be/abc".data = .indexError :=
  ⟨(c10_convert_fixed_point_or_raise "youtube.com/shorts/abc".data).1
      "https://www.youtube.com/watch?v=abc".data (by decide),
   (c10_convert_fixed_point_or_raise "x".data).2.1 ⟨by decide, by decide⟩,
   (c10_convert_fixed_point_or_raise "youtu.be/abc".data).2.2 "abc".data
      (by decide) (by decide)⟩
